import Mathlib

/-!
Shallow embedding of the viewability tracker (class Viewability and its helpers) and
proofs about its state machine, true-visibility classifier, occlusion detector and
option validator.

Numbers are modelled as rationals. The DOM environment (computed styles, ancestor
chain, viewport size, topmost-element queries, element resolution) is an explicit
input to each operation, mirroring the external collaborators the code reads at call
time. Callback invocations and dispatched errors are recorded in ghost counters so
that observable events can be stated and proved.
-/

namespace Viewability

/-- Rectangle as returned by getBoundingClientRect; right and bottom are derived. -/
structure Rect where
  left : ℚ
  top : ℚ
  width : ℚ
  height : ℚ
deriving DecidableEq

/-- Right edge of a rectangle. -/
def Rect.right (r : Rect) : ℚ := r.left + r.width

/-- Bottom edge of a rectangle. -/
def Rect.bottom (r : Rect) : ℚ := r.top + r.height

/-- Outcome of inspecting the computed transform string, as classified by the code:
an empty (falsy) string, the literal string none, a string matched by the pattern
matrix with its comma-separated numeric values, a string matched by the
zero-scale pattern, or any other string. -/
inductive Transform where
  | empty
  | noneKw
  | matrixVals (values : List ℚ)
  | scaleZero
  | other
deriving DecidableEq

/-- Computed style of an element: the fields the code reads. opacity is the
numeric value obtained by parsing the opacity string. -/
structure Style where
  display : String
  visibility : String
  opacity : ℚ
  transform : Transform
deriving DecidableEq

/-- Result of a topmost-element-at-point query: whether the tracked element
contains the returned element, and whether it is the tracked element itself. -/
structure TopEl where
  containsTop : Bool
  isTarget : Bool
deriving DecidableEq

/-- DOM environment consulted while classifying visibility of the tracked element:
its hidden attribute, its computed style, the computed styles of its ancestor chain
bottom-up, the viewport size, and the topmost-element query. -/
structure VisEnv where
  hidden : Bool
  style : Style
  ancestorStyles : List Style
  innerWidth : ℚ
  innerHeight : ℚ
  elementFromPoint : ℚ → ℚ → Option TopEl

/-- The nine sample points of the occlusion detector, in source order:
center, the four quarter points, then the four corners inset by one unit. -/
def samplePoints (rect : Rect) : List (ℚ × ℚ) :=
  [ (rect.left + rect.width / 2, rect.top + rect.height / 2),
    (rect.left + rect.width * (1/4), rect.top + rect.height * (1/4)),
    (rect.left + rect.width * (3/4), rect.top + rect.height * (1/4)),
    (rect.left + rect.width * (1/4), rect.top + rect.height * (3/4)),
    (rect.left + rect.width * (3/4), rect.top + rect.height * (3/4)),
    (rect.left + 1, rect.top + 1),
    (rect.right - 1, rect.top + 1),
    (rect.left + 1, rect.bottom - 1),
    (rect.right - 1, rect.bottom - 1) ]

/-- A sample point lies outside the viewport: x or y negative, or beyond the
viewport width or height. -/
def pointOutside (env : VisEnv) (p : ℚ × ℚ) : Bool :=
  decide (p.1 < 0) || decide (p.2 < 0) ||
    decide (env.innerWidth < p.1) || decide (env.innerHeight < p.2)

/-- A sample point counts as covered when the topmost element there exists and is
neither contained in the tracked element nor the tracked element itself. -/
def pointCovered (env : VisEnv) (p : ℚ × ℚ) : Bool :=
  match env.elementFromPoint p.1 p.2 with
  | some top => !top.containsTop && !top.isTarget
  | none => false

/-- Loop of the occlusion detector: walks the sample points in order, returning
none on the first out-of-viewport point (the code returns not-obscured from the
whole function there), otherwise the covered count and the valid-point count. -/
def obscuredLoop (env : VisEnv) : List (ℚ × ℚ) → Nat → Nat → Option (Nat × Nat)
  | [], covered, valid => some (covered, valid)
  | p :: ps, covered, valid =>
    if pointOutside env p then none
    else obscuredLoop env ps (covered + (if pointCovered env p then 1 else 0)) (valid + 1)

/-- Occlusion detector: false when the element reference is absent; false when a
sample point falls outside the viewport; otherwise obscured exactly when the
covered ratio reaches the coverage threshold. -/
def _isObscured (elementPresent : Bool) (coverageThreshold : ℚ) (env : VisEnv)
    (rect : Rect) : Bool :=
  if !elementPresent then false
  else
    match obscuredLoop env (samplePoints rect) 0 0 with
    | none => false
    | some (covered, valid) =>
      decide (coverageThreshold ≤ (covered : ℚ) / (valid : ℚ))

/-- Zero-scale transform test: a matched matrix form fails when its first or
fourth value equals zero; an unmatched string matching the zero-scale pattern
fails; the empty string and the literal none are skipped. -/
def transformZero : Transform → Bool
  | .empty => false
  | .noneKw => false
  | .matrixVals values => (values.get? 0 == some 0) || (values.get? 3 == some 0)
  | .scaleZero => true
  | .other => false

/-- True-visibility classifier: element presence, hidden attribute, computed style
basics, zero-sized rectangle, zero-scale transform, occlusion, hidden ancestor,
in that order; first failing check returns false. -/
def _isReallyVisible (elementPresent : Bool) (coverageThreshold : ℚ) (env : VisEnv)
    (rect : Rect) : Bool :=
  if !elementPresent then false
  else if env.hidden then false
  else if env.style.display == "none" || env.style.visibility == "hidden" ||
      env.style.visibility == "collapse" || env.style.opacity == 0 then false
  else if rect.width == 0 || rect.height == 0 then false
  else if transformZero env.style.transform then false
  else if _isObscured elementPresent coverageThreshold env rect then false
  else if env.ancestorStyles.any (fun s =>
      s.display == "none" || s.visibility == "hidden" || s.visibility == "collapse")
    then false
  else true

/-- Validated configuration of a tracker. onComplete and onError record whether
the corresponding option-level callback hooks were supplied. -/
structure Options where
  autostart : Bool
  autostop : Bool
  coverageThreshold : ℚ
  inViewThreshold : ℚ
  isVisible : Bool
  timeInView : ℚ
  onComplete : Bool
  onError : Bool
deriving DecidableEq

/-- The errors the code can dispatch, identified by their message text. The first
three boolean option checks all construct the error whose text says that
coverageThreshold must be true or false; that shared text is one constructor. -/
inductive ErrMsg where
  | coverageMustBeBoolText
  | coverageRange
  | inViewRange
  | timeInViewNonNeg
  | elementNotFound
deriving DecidableEq

/-- Tracker state. element records whether the element reference has been
resolved; observer and timer record presence of the subscription and of the
pending completion timer. instOnComplete and instOnError are the
post-construction assignable hooks. completeCalls counts invocations of the
completion callback and errors lists the errors routed through the dispatcher;
both are ghost observers of the callbacks the code fires. -/
structure Tracker where
  el : String
  element : Bool
  options : Options
  instOnComplete : Bool
  instOnError : Bool
  completed : Bool
  inView : Bool
  started : Bool
  observer : Bool
  timer : Bool
  completeCalls : Nat
  errors : List ErrMsg
deriving DecidableEq

/-- Large-creative area bound used by the threshold adjustment rule. -/
def largeSizeElement : ℚ := 242500

/-- Error dispatcher: records the routed error (the code hands it to the user
hook when present, else to the default sink; either way exactly one report). -/
def _handleError (t : Tracker) (msg : ErrMsg) : Tracker :=
  { t with errors := t.errors ++ [msg] }

/-- Resolves the element when still unresolved: keeps it when already resolved,
marks it resolved on success, dispatches element-not-found on failure. -/
def _initializeElement (t : Tracker) (found : Bool) : Tracker :=
  if t.element then t
  else if found then { t with element := true }
  else _handleError t ErrMsg.elementNotFound

/-- Tears down the subscription when both the subscription and the element are
present. -/
def _unobserve (t : Tracker) : Tracker :=
  if t.observer && t.element then { t with observer := false } else t

/-- Clears the pending timer when present. -/
def _stopTimer (t : Tracker) : Tracker :=
  if t.timer then { t with timer := false } else t

/-- Public stop: unobserve then stop the timer. -/
def stop (t : Tracker) : Tracker :=
  _stopTimer (_unobserve t)

/-- Public start, given the element-resolution outcome and the bounding rectangle
the element reports at this moment: resolves the element, returns when a
subscription already exists or no element is resolved, applies the one-time
large-element threshold adjustment, and opens the subscription. -/
def start (t0 : Tracker) (found : Bool) (rectNow : Rect) : Tracker :=
  let t := _initializeElement t0 found
  if t.observer = true ∨ t.element = false then t
  else
    let t1 :=
      if t.options.inViewThreshold = 1/2 ∧ largeSizeElement ≤ rectNow.width * rectNow.height
        then { t with options := { t.options with inViewThreshold := 3/10 } }
        else t
    { t1 with observer := true }

/-- In-view transition: sets started and inView and arms the completion timer. -/
def _inView (t : Tracker) : Tracker :=
  { t with started := true, inView := true, timer := true }

/-- Out-view transition: clears inView and cancels the timer. -/
def _outView (t : Tracker) : Tracker :=
  _stopTimer { t with inView := false }

/-- Completion handler: on the first completion, sets completed and invokes the
completion callback (option-level hook first, else the assignable hook); then
unobserves when autostop is set, and always stops the timer. -/
def _onComplete (t : Tracker) : Tracker :=
  let t1 :=
    if !t.completed then
      let t2 := { t with completed := true }
      if t2.options.onComplete || t2.instOnComplete then
        { t2 with completeCalls := t2.completeCalls + 1 }
      else t2
    else t
  let t3 := if t1.options.autostop then _unobserve t1 else t1
  _stopTimer t3

/-- One intersection sample: the reported ratio, the bounding rectangle, and the
DOM environment consulted if the classifier runs. -/
structure Entry where
  ratioQ : ℚ
  rect : Rect
  env : VisEnv

/-- Sample handler: uses only the first entry of a batch; ignores the batch when
empty or when completed; ignores it when the classifier is enabled and rejects;
otherwise applies the out-view transition then the in-view transition, each under
its threshold condition. -/
def _viewableChange (t : Tracker) (entries : List Entry) : Tracker :=
  match entries with
  | [] => t
  | entry :: _ =>
    if t.completed then t
    else if t.options.isVisible &&
        !(_isReallyVisible t.element t.options.coverageThreshold entry.env entry.rect)
      then t
    else
      let t1 :=
        if entry.ratioQ < t.options.inViewThreshold ∧ t.started ∧ t.inView
          then _outView t else t
      if t1.options.inViewThreshold ≤ entry.ratioQ ∧ ¬t1.inView
        then _inView t1 else t1

/-- Initial tracker state holding the given validated options. -/
def initTracker (opts : Options) : Tracker :=
  { el := "", element := false, options := opts, instOnComplete := false,
    instOnError := false, completed := false, inView := false, started := false,
    observer := false, timer := false, completeCalls := 0, errors := [] }

/-- Constructor on validated options: stores the target identifier and, when
autostart is set, starts at once with the given resolution outcome and
rectangle. -/
def mkTracker (opts : Options) (elem : String) (found : Bool) (rect : Rect) : Tracker :=
  let t := { initTracker opts with el := elem }
  if opts.autostart then start t found rect else t

/-- A raw option value as supplied by the caller, before validation: a boolean,
a number, a string, or undefined. -/
inductive JSVal where
  | bool (b : Bool)
  | num (q : ℚ)
  | str (s : String)
  | undef
deriving DecidableEq

/-- The merged configuration bag handed to the validator: the caller's values
layered over the documented defaults. onComplete and onError record presence of
the callback hooks. -/
structure RawOptions where
  autostart : JSVal
  autostop : JSVal
  coverageThreshold : JSVal
  inViewThreshold : JSVal
  isVisible : JSVal
  timeInView : JSVal
  onComplete : Bool
  onError : Bool
deriving DecidableEq

/-- Whether a raw value is a boolean. -/
def JSVal.isBoolVal : JSVal → Bool
  | .bool _ => true
  | _ => false

/-- Coerces a raw value to a boolean; exact on validated inputs. -/
def JSVal.asBool : JSVal → Bool
  | .bool b => b
  | _ => false

/-- Coerces a raw value to a number; exact on validated inputs. -/
def JSVal.asNum : JSVal → ℚ
  | .num q => q
  | _ => 0

/-- Option validator: runs the checks in source order and returns the first
violated check's error, or none when all pass. The three boolean checks all
return the same copy-pasted error text naming coverageThreshold. -/
def _validateOptions (o : RawOptions) : Option ErrMsg :=
  if !o.autostart.isBoolVal then some ErrMsg.coverageMustBeBoolText
  else if !o.autostop.isBoolVal then some ErrMsg.coverageMustBeBoolText
  else if !o.isVisible.isBoolVal then some ErrMsg.coverageMustBeBoolText
  else if (match o.coverageThreshold with
      | .num q => decide (q ≤ 0) || decide (1 < q)
      | _ => true)
    then some ErrMsg.coverageRange
  else if (match o.inViewThreshold with
      | .num q => decide (q < 0) || decide (1 < q)
      | _ => true)
    then some ErrMsg.inViewRange
  else if (match o.timeInView with
      | .num q => decide (q < 0)
      | _ => true)
    then some ErrMsg.timeInViewNonNeg
  else none

/-- Reads a validated raw bag into typed options. -/
def rawToOptions (o : RawOptions) : Options :=
  { autostart := o.autostart.asBool, autostop := o.autostop.asBool,
    coverageThreshold := o.coverageThreshold.asNum,
    inViewThreshold := o.inViewThreshold.asNum,
    isVisible := o.isVisible.asBool, timeInView := o.timeInView.asNum,
    onComplete := o.onComplete, onError := o.onError }

/-- Full constructor from a raw configuration: validates first; on violation,
dispatches that one error and returns with the target identifier unset, no
element resolution attempted and no subscription; otherwise stores the target
and, when autostart is set, starts. -/
def constructRaw (raw : RawOptions) (elem : String) (found : Bool) (rect : Rect) :
    Tracker :=
  let t := initTracker (rawToOptions raw)
  match _validateOptions raw with
  | some msg => _handleError t msg
  | none =>
    let t1 := { t with el := elem }
    if t1.options.autostart then start t1 found rect else t1

/-- External events driving a tracker: a start call (with the resolution outcome
and the rectangle the element reports then), a stop call, delivery of a sample
batch by the subscription, and the firing of the armed timer. -/
inductive Event where
  | start (found : Bool) (rect : Rect)
  | stop
  | sample (entries : List Entry)
  | timerFire

/-- One event step. Sample batches are delivered only while the subscription is
active, and the timer fires only while armed. -/
def step (t : Tracker) (e : Event) : Tracker :=
  match e with
  | .start found rect => start t found rect
  | .stop => stop t
  | .sample entries => if t.observer then _viewableChange t entries else t
  | .timerFire => if t.timer then _onComplete t else t

/-- Runs a sequence of events. -/
def run (t : Tracker) : List Event → Tracker
  | [] => t
  | e :: es => run (step t e) es

/-! Concrete fixtures used by counterexamples and witnesses. -/

/-- Neutral computed style: visible display, full opacity, transform none. -/
def trivStyle : Style :=
  { display := "block", visibility := "visible", opacity := 1, transform := .noneKw }

/-- Neutral environment: nothing hidden, no ancestors, empty point queries. -/
def trivEnv : VisEnv :=
  { hidden := false, style := trivStyle, ancestorStyles := [],
    innerWidth := 1000, innerHeight := 1000, elementFromPoint := fun _ _ => none }

/-- A small 10 by 10 rectangle at the origin. -/
def rectSmall : Rect := { left := 0, top := 0, width := 10, height := 10 }

/-- A 970 by 250 rectangle, of area exactly 242500. -/
def rectBig : Rect := { left := 0, top := 0, width := 970, height := 250 }

/-- A fully in-view sample. -/
def entryIn : Entry := { ratioQ := 1, rect := rectSmall, env := trivEnv }

/-- A fully out-of-view sample. -/
def entryOut : Entry := { ratioQ := 0, rect := rectSmall, env := trivEnv }

/-- Manual-start options with autostop disabled and the classifier disabled. -/
def optsNoStop : Options :=
  { autostart := false, autostop := false, coverageThreshold := 1/10,
    inViewThreshold := 1/2, isVisible := false, timeInView := 1000,
    onComplete := true, onError := false }

/-- Manual-start options with autostop enabled and the classifier disabled. -/
def optsManual : Options :=
  { autostart := false, autostop := true, coverageThreshold := 1/10,
    inViewThreshold := 1/2, isVisible := false, timeInView := 1000,
    onComplete := false, onError := false }

/-! Helper lemmas about the individual operations. -/

theorem stopTimer_eq (t : Tracker) : _stopTimer t = { t with timer := false } := by
  unfold _stopTimer
  split
  · rfl
  · cases t
    simp_all

theorem unobserve_cases (t : Tracker) :
    _unobserve t = t ∨ _unobserve t = { t with observer := false } := by
  unfold _unobserve
  split
  · exact Or.inr rfl
  · exact Or.inl rfl

theorem unobserve_of_element (t : Tracker) (h : t.element = true) :
    _unobserve t = { t with observer := false } := by
  unfold _unobserve
  split
  · rfl
  · cases t
    simp_all

theorem stop_cases (t : Tracker) :
    stop t = { t with timer := false } ∨ stop t = { t with observer := false, timer := false } := by
  unfold stop
  rcases unobserve_cases t with h | h <;> rw [h, stopTimer_eq]
  · exact Or.inl rfl
  · exact Or.inr rfl

theorem stop_eq_of (t : Tracker) (h : t.observer = true → t.element = true) :
    stop t = { t with observer := false, timer := false } := by
  cases t with
  | mk el element options ioc ioe comp iv st obs tim calls errs =>
    cases obs <;> cases element <;> cases tim <;>
      simp_all [stop, _unobserve, _stopTimer]

theorem stop_stop (t : Tracker) : stop (stop t) = stop t := by
  cases t with
  | mk el element options ioc ioe comp iv st obs tim calls errs =>
    cases obs <;> cases element <;> cases tim <;>
      simp [stop, _unobserve, _stopTimer]

theorem initializeElement_cases (t : Tracker) (found : Bool) :
    _initializeElement t found = t ∨
      _initializeElement t found = { t with element := true } ∨
      _initializeElement t found = { t with errors := t.errors ++ [ErrMsg.elementNotFound] } := by
  unfold _initializeElement _handleError
  split
  · exact Or.inl rfl
  · split
    · exact Or.inr (Or.inl rfl)
    · exact Or.inr (Or.inr rfl)

theorem initializeElement_element (t : Tracker) (found : Bool) :
    (_initializeElement t found).element = (t.element || found) := by
  unfold _initializeElement _handleError
  split <;> rename_i h
  · simp [h]
  · split <;> simp_all

theorem start_cases (t0 : Tracker) (found : Bool) (rectNow : Rect) :
    (start t0 found rectNow = _initializeElement t0 found ∧
      ((_initializeElement t0 found).observer = true ∨
        (_initializeElement t0 found).element = false)) ∨
    (start t0 found rectNow =
        { _initializeElement t0 found with observer := true } ∧
      ¬((_initializeElement t0 found).observer = true ∨
        (_initializeElement t0 found).element = false) ∧
      ¬((_initializeElement t0 found).options.inViewThreshold = 1/2 ∧
        largeSizeElement ≤ rectNow.width * rectNow.height)) ∨
    (start t0 found rectNow =
        { _initializeElement t0 found with
            options := { (_initializeElement t0 found).options with inViewThreshold := 3/10 },
            observer := true } ∧
      ¬((_initializeElement t0 found).observer = true ∨
        (_initializeElement t0 found).element = false) ∧
      (_initializeElement t0 found).options.inViewThreshold = 1/2 ∧
      largeSizeElement ≤ rectNow.width * rectNow.height) := by
  simp only [start]
  split <;> rename_i h
  · exact Or.inl ⟨rfl, by tauto⟩
  · split <;> rename_i h2
    · exact Or.inr (Or.inr ⟨rfl, h, h2⟩)
    · exact Or.inr (Or.inl ⟨rfl, h, h2⟩)

theorem outView_eq (t : Tracker) : _outView t = { t with inView := false, timer := false } := by
  unfold _outView
  rw [stopTimer_eq]

theorem initializeElement_frame (t : Tracker) (found : Bool) :
    (_initializeElement t found).el = t.el ∧
    (_initializeElement t found).options = t.options ∧
    (_initializeElement t found).completed = t.completed ∧
    (_initializeElement t found).inView = t.inView ∧
    (_initializeElement t found).started = t.started ∧
    (_initializeElement t found).observer = t.observer ∧
    (_initializeElement t found).timer = t.timer ∧
    (_initializeElement t found).completeCalls = t.completeCalls := by
  rcases initializeElement_cases t found with h | h | h <;> rw [h] <;> simp

theorem start_frame (t0 : Tracker) (found : Bool) (rectNow : Rect) :
    (start t0 found rectNow).completed = t0.completed ∧
    (start t0 found rectNow).completeCalls = t0.completeCalls ∧
    (start t0 found rectNow).timer = t0.timer ∧
    (start t0 found rectNow).inView = t0.inView ∧
    (start t0 found rectNow).started = t0.started ∧
    (start t0 found rectNow).el = t0.el := by
  obtain ⟨hel, _, hc, hiv, hst, _, htm, hcc⟩ := initializeElement_frame t0 found
  rcases start_cases t0 found rectNow with ⟨h, _⟩ | ⟨h, _⟩ | ⟨h, _⟩ <;> rw [h] <;>
    simp [hel, hc, hiv, hst, htm, hcc]

theorem start_thr_cases (t0 : Tracker) (found : Bool) (rectNow : Rect) :
    (start t0 found rectNow).options.inViewThreshold = t0.options.inViewThreshold ∨
      (t0.options.inViewThreshold = 1/2 ∧
        (start t0 found rectNow).options.inViewThreshold = 3/10) := by
  obtain ⟨_, hopts, _⟩ := initializeElement_frame t0 found
  rcases start_cases t0 found rectNow with ⟨h, _⟩ | ⟨h, _⟩ | ⟨h, _, h2, _⟩ <;> rw [h]
  · exact Or.inl (by rw [hopts])
  · exact Or.inl (by simp [hopts])
  · refine Or.inr ⟨?_, by simp⟩
    rw [hopts] at h2
    exact h2

theorem start_thr_characterization (t0 : Tracker) (found : Bool) (rectNow : Rect) :
    (start t0 found rectNow).options.inViewThreshold ≠ t0.options.inViewThreshold ↔
      (t0.observer = false ∧ (t0.element = true ∨ found = true) ∧
        t0.options.inViewThreshold = 1/2 ∧
        largeSizeElement ≤ rectNow.width * rectNow.height) := by
  cases t0 with
  | mk el element options ioc ioe comp iv st obs tim calls errs =>
    cases obs <;> cases element <;> cases found <;>
      simp [start, _initializeElement, _handleError] <;>
      split_ifs with h <;> simp_all <;> norm_num

theorem onComplete_completed (t : Tracker) : (_onComplete t).completed = true := by
  cases t with
  | mk el element options ioc ioe comp iv st obs tim calls errs =>
    simp only [_onComplete, _unobserve, _stopTimer]
    split_ifs <;> simp_all

theorem onComplete_timer (t : Tracker) : (_onComplete t).timer = false := by
  cases t with
  | mk el element options ioc ioe comp iv st obs tim calls errs =>
    simp only [_onComplete, _unobserve, _stopTimer]
    split_ifs <;> simp_all

theorem onComplete_frame (t : Tracker) :
    (_onComplete t).el = t.el ∧
    (_onComplete t).element = t.element ∧
    (_onComplete t).options = t.options ∧
    (_onComplete t).inView = t.inView ∧
    (_onComplete t).started = t.started ∧
    (_onComplete t).errors = t.errors := by
  cases t with
  | mk el element options ioc ioe comp iv st obs tim calls errs =>
    simp only [_onComplete, _unobserve, _stopTimer]
    split_ifs <;> simp_all

theorem onComplete_observer_of_autostop (t : Tracker)
    (h1 : t.options.autostop = true) (h2 : t.element = true) :
    (_onComplete t).observer = false := by
  cases t with
  | mk el element options ioc ioe comp iv st obs tim calls errs =>
    simp only [_onComplete, _unobserve, _stopTimer] at h1 h2 ⊢
    split_ifs <;> simp_all

theorem onComplete_observer_of_noautostop (t : Tracker)
    (h : t.options.autostop = false) :
    (_onComplete t).observer = t.observer := by
  cases t with
  | mk el element options ioc ioe comp iv st obs tim calls errs =>
    simp only [_onComplete, _unobserve, _stopTimer] at h ⊢
    split_ifs <;> simp_all

theorem onComplete_calls_cases (t : Tracker) :
    (_onComplete t).completeCalls = t.completeCalls ∨
      (t.completed = false ∧ (_onComplete t).completeCalls = t.completeCalls + 1) := by
  cases t with
  | mk el element options ioc ioe comp iv st obs tim calls errs =>
    simp only [_onComplete, _unobserve, _stopTimer]
    split_ifs <;> simp_all

theorem onComplete_calls_of_completed (t : Tracker) (h : t.completed = true) :
    (_onComplete t).completeCalls = t.completeCalls := by
  rcases onComplete_calls_cases t with h1 | ⟨h2, _⟩
  · exact h1
  · rw [h] at h2
    cases h2

theorem viewableChange_shape (t : Tracker) (entries : List Entry) :
    _viewableChange t entries = t ∨
      (t.completed = false ∧
        (_viewableChange t entries = { t with inView := false, timer := false } ∨
          _viewableChange t entries =
            { t with started := true, inView := true, timer := true })) := by
  match entries with
  | [] => exact Or.inl rfl
  | entry :: rest =>
    simp only [_viewableChange]
    by_cases h1 : t.completed = true
    · rw [if_pos h1]
      exact Or.inl rfl
    · rw [if_neg h1]
      by_cases h2 : (t.options.isVisible &&
          !(_isReallyVisible t.element t.options.coverageThreshold entry.env entry.rect)) = true
      · rw [if_pos h2]
        exact Or.inl rfl
      · rw [if_neg h2]
        by_cases h3 : entry.ratioQ < t.options.inViewThreshold ∧ t.started = true ∧ t.inView = true
        · rw [if_pos h3, outView_eq]
          have hc : ¬(({ t with inView := false, timer := false } :
                Tracker).options.inViewThreshold ≤ entry.ratioQ ∧
              ¬(({ t with inView := false, timer := false } : Tracker).inView = true)) := by
            rintro ⟨hc1, _⟩
            exact absurd h3.1 (not_lt.mpr hc1)
          rw [if_neg hc]
          exact Or.inr ⟨by simp_all, Or.inl rfl⟩
        · rw [if_neg h3]
          by_cases h4 : t.options.inViewThreshold ≤ entry.ratioQ ∧ ¬(t.inView = true)
          · rw [if_pos h4]
            exact Or.inr ⟨by simp_all, Or.inr rfl⟩
          · rw [if_neg h4]
            exact Or.inl rfl

theorem viewableChange_frame (t : Tracker) (entries : List Entry) :
    (_viewableChange t entries).completed = t.completed ∧
    (_viewableChange t entries).completeCalls = t.completeCalls ∧
    (_viewableChange t entries).options = t.options ∧
    (_viewableChange t entries).observer = t.observer ∧
    (_viewableChange t entries).element = t.element ∧
    (_viewableChange t entries).el = t.el ∧
    (_viewableChange t entries).errors = t.errors := by
  rcases viewableChange_shape t entries with h | ⟨_, h | h⟩ <;> rw [h] <;> simp

theorem viewableChange_of_completed (t : Tracker) (entries : List Entry)
    (h : t.completed = true) : _viewableChange t entries = t := by
  rcases viewableChange_shape t entries with h1 | ⟨h2, _⟩
  · exact h1
  · rw [h] at h2
    cases h2

theorem stop_frame_all (t : Tracker) :
    (stop t).el = t.el ∧ (stop t).element = t.element ∧ (stop t).options = t.options ∧
    (stop t).instOnComplete = t.instOnComplete ∧ (stop t).instOnError = t.instOnError ∧
    (stop t).completed = t.completed ∧ (stop t).inView = t.inView ∧
    (stop t).started = t.started ∧ (stop t).completeCalls = t.completeCalls ∧
    (stop t).errors = t.errors := by
  rcases stop_cases t with h | h <;> rw [h] <;> simp

theorem stop_timer_eq_false (t : Tracker) : (stop t).timer = false := by
  rcases stop_cases t with h | h <;> rw [h]

theorem step_completed_mono (t : Tracker) (e : Event) (h : t.completed = true) :
    (step t e).completed = true := by
  cases e with
  | start found rect =>
    show (start t found rect).completed = true
    rw [(start_frame t found rect).1, h]
  | stop =>
    show (stop t).completed = true
    rw [(stop_frame_all t).2.2.2.2.2.1, h]
  | sample entries =>
    show (if t.observer then _viewableChange t entries else t).completed = true
    split
    · rw [(viewableChange_frame t entries).1, h]
    · exact h
  | timerFire =>
    show (if t.timer then _onComplete t else t).completed = true
    split
    · exact onComplete_completed t
    · exact h

theorem step_thr_cases (t : Tracker) (e : Event) :
    (step t e).options.inViewThreshold = t.options.inViewThreshold ∨
      (t.options.inViewThreshold = 1/2 ∧ (step t e).options.inViewThreshold = 3/10) := by
  cases e with
  | start found rect => exact start_thr_cases t found rect
  | stop =>
    show (stop t).options.inViewThreshold = _ ∨ _
    exact Or.inl (by rw [(stop_frame_all t).2.2.1])
  | sample entries =>
    show (if t.observer then _viewableChange t entries else t).options.inViewThreshold = _ ∨ _
    split
    · exact Or.inl (by rw [(viewableChange_frame t entries).2.2.1])
    · exact Or.inl rfl
  | timerFire =>
    show (if t.timer then _onComplete t else t).options.inViewThreshold = _ ∨ _
    split
    · exact Or.inl (by rw [(onComplete_frame t).2.2.1])
    · exact Or.inl rfl

theorem run_thr_of_ne (t : Tracker) (evs : List Event)
    (h : t.options.inViewThreshold ≠ 1/2) :
    (run t evs).options.inViewThreshold = t.options.inViewThreshold := by
  induction evs generalizing t with
  | nil => rfl
  | cons e es ih =>
    show (run (step t e) es).options.inViewThreshold = _
    rcases step_thr_cases t e with h1 | ⟨h2, _⟩
    · rw [ih (step t e) (by rw [h1]; exact h), h1]
    · exact absurd h2 h

/-- Invariant powering the at-most-one-completion claim: the callback counter is
at most one and is zero before completion. -/
def Inv1 (t : Tracker) : Prop :=
  t.completeCalls ≤ 1 ∧ (t.completed = false → t.completeCalls = 0)

theorem inv1_step (t : Tracker) (e : Event) (h : Inv1 t) : Inv1 (step t e) := by
  obtain ⟨h1, h2⟩ := h
  cases e with
  | start found rect =>
    show Inv1 (start t found rect)
    obtain ⟨hc, hcc, _⟩ := start_frame t found rect
    exact ⟨by rw [hcc]; exact h1, fun hf => by rw [hcc]; exact h2 (by rw [← hc]; exact hf)⟩
  | stop =>
    show Inv1 (stop t)
    obtain ⟨_, _, _, _, _, hc, _, _, hcc, _⟩ := stop_frame_all t
    exact ⟨by rw [hcc]; exact h1, fun hf => by rw [hcc]; exact h2 (by rw [← hc]; exact hf)⟩
  | sample entries =>
    show Inv1 (if t.observer then _viewableChange t entries else t)
    split
    · obtain ⟨hc, hcc, _⟩ := viewableChange_frame t entries
      exact ⟨by rw [hcc]; exact h1, fun hf => by rw [hcc]; exact h2 (by rw [← hc]; exact hf)⟩
    · exact ⟨h1, h2⟩
  | timerFire =>
    show Inv1 (if t.timer then _onComplete t else t)
    split
    · constructor
      · rcases onComplete_calls_cases t with hcc | ⟨hf, hcc⟩
        · rw [hcc]; exact h1
        · rw [hcc, h2 hf]
      · intro hf
        rw [onComplete_completed t] at hf
        cases hf
    · exact ⟨h1, h2⟩

theorem inv1_run (t : Tracker) (evs : List Event) (h : Inv1 t) : Inv1 (run t evs) := by
  induction evs generalizing t with
  | nil => exact h
  | cons e es ih => exact ih (step t e) (inv1_step t e h)

theorem inv1_constructRaw (raw : RawOptions) (elem : String) (found : Bool) (rect : Rect) :
    Inv1 (constructRaw raw elem found rect) := by
  simp only [constructRaw]
  split
  · exact ⟨by simp [_handleError, initTracker], by simp [_handleError, initTracker]⟩
  · split
    · obtain ⟨_, hcc, _⟩ :=
        start_frame { initTracker (rawToOptions raw) with el := elem } found rect
      constructor
      · rw [hcc]
        simp [initTracker]
      · intro _
        rw [hcc]
        simp [initTracker]
    · exact ⟨by simp [initTracker], by simp [initTracker]⟩

/-- Invariant powering the timer claim: a pending timer implies in-view, not yet
completed, and an active subscription. -/
def InvT (t : Tracker) : Prop :=
  t.timer = true → (t.inView = true ∧ t.completed = false ∧ t.observer = true)

theorem invT_step (t : Tracker) (e : Event) (h : InvT t) : InvT (step t e) := by
  cases e with
  | start found rect =>
    show InvT (start t found rect)
    intro htm
    obtain ⟨hc, _, htm2, hiv, _, _⟩ := start_frame t found rect
    rw [htm2] at htm
    obtain ⟨h1, h2, h3⟩ := h htm
    refine ⟨by rw [hiv]; exact h1, by rw [hc]; exact h2, ?_⟩
    rcases start_cases t found rect with ⟨heq, hcond⟩ | ⟨heq, _⟩ | ⟨heq, _⟩ <;> rw [heq]
    · rcases hcond with hcond | hcond
      · exact hcond
      · rw [initializeElement_element t found] at hcond
        obtain ⟨_, _, _, _, _, hobs, _, _⟩ := initializeElement_frame t found
        rw [hobs]
        exact h3
  | stop =>
    show InvT (stop t)
    intro htm
    rw [stop_timer_eq_false t] at htm
    cases htm
  | sample entries =>
    show InvT (if t.observer then _viewableChange t entries else t)
    split <;> rename_i hobs
    · intro htm
      rcases viewableChange_shape t entries with heq | ⟨hcompl, heq | heq⟩
      · rw [heq] at htm ⊢
        exact h htm
      · rw [heq] at htm
        cases htm
      · rw [heq]
        refine ⟨rfl, hcompl, hobs⟩
    · exact h
  | timerFire =>
    show InvT (if t.timer then _onComplete t else t)
    split
    · intro htm
      rw [onComplete_timer t] at htm
      cases htm
    · exact h

theorem invT_run (t : Tracker) (evs : List Event) (h : InvT t) : InvT (run t evs) := by
  induction evs generalizing t with
  | nil => exact h
  | cons e es ih => exact ih (step t e) (invT_step t e h)

theorem constructRaw_timer (raw : RawOptions) (elem : String) (found : Bool) (rect : Rect) :
    (constructRaw raw elem found rect).timer = false := by
  simp only [constructRaw]
  split
  · simp [_handleError, initTracker]
  · split
    · obtain ⟨_, _, htm, _⟩ :=
        start_frame { initTracker (rawToOptions raw) with el := elem } found rect
      rw [htm]
      simp [initTracker]
    · simp [initTracker]

theorem viewableChange_main (t : Tracker) (entry : Entry) (rest : List Entry)
    (h1 : t.completed = false)
    (h2 : (t.options.isVisible &&
      !(_isReallyVisible t.element t.options.coverageThreshold entry.env entry.rect)) = false) :
    _viewableChange t (entry :: rest) =
      if entry.ratioQ < t.options.inViewThreshold ∧ t.started = true ∧ t.inView = true
        then { t with inView := false, timer := false }
      else if t.options.inViewThreshold ≤ entry.ratioQ ∧ t.inView = false
        then { t with started := true, inView := true, timer := true }
      else t := by
  simp only [_viewableChange]
  rw [if_neg (by rw [h1]; exact Bool.false_ne_true)]
  rw [if_neg (by rw [h2]; exact Bool.false_ne_true)]
  by_cases h3 : entry.ratioQ < t.options.inViewThreshold ∧ t.started = true ∧ t.inView = true
  · rw [if_pos h3, if_pos h3, outView_eq]
    have hc : ¬(({ t with inView := false, timer := false } :
          Tracker).options.inViewThreshold ≤ entry.ratioQ ∧
        ¬(({ t with inView := false, timer := false } : Tracker).inView = true)) := by
      rintro ⟨hc1, _⟩
      exact absurd h3.1 (not_lt.mpr hc1)
    rw [if_neg hc]
  · rw [if_neg h3, if_neg h3]
    by_cases h4 : t.options.inViewThreshold ≤ entry.ratioQ ∧ ¬(t.inView = true)
    · rw [if_pos h4, if_pos ⟨h4.1, Bool.not_eq_true t.inView ▸ h4.2⟩]
      rfl
    · rw [if_neg h4]
      have h4x : ¬(t.options.inViewThreshold ≤ entry.ratioQ ∧ t.inView = false) := by
        rintro ⟨ha, hb⟩
        exact h4 ⟨ha, by rw [hb]; exact Bool.false_ne_true⟩
      rw [if_neg h4x]

theorem viewableChange_invisible_eq (t : Tracker) (entry : Entry) (rest : List Entry)
    (h1 : t.completed = false) (h2 : t.options.isVisible = true)
    (h3 : _isReallyVisible t.element t.options.coverageThreshold entry.env entry.rect = false) :
    _viewableChange t (entry :: rest) = t := by
  simp only [_viewableChange]
  rw [if_neg (by rw [h1]; exact Bool.false_ne_true), if_pos (by rw [h2, h3]; rfl)]

theorem visGuard_false_of (t : Tracker) (entry : Entry)
    (h : t.options.isVisible = true →
      _isReallyVisible t.element t.options.coverageThreshold entry.env entry.rect = true) :
    (t.options.isVisible &&
      !(_isReallyVisible t.element t.options.coverageThreshold entry.env entry.rect)) = false := by
  by_cases hv : t.options.isVisible = true
  · rw [hv, h hv]
    rfl
  · rw [Bool.not_eq_true] at hv
    rw [hv]
    rfl

theorem obscuredLoop_of_all_inside (env : VisEnv) (ps : List (ℚ × ℚ)) (c v : Nat)
    (h : ∀ p ∈ ps, pointOutside env p = false) :
    obscuredLoop env ps c v =
      some (c + ps.countP (fun p => pointCovered env p), v + ps.length) := by
  induction ps generalizing c v with
  | nil => simp [obscuredLoop]
  | cons p ps ih =>
    have hp : pointOutside env p = false := h p (List.mem_cons_self p ps)
    rw [obscuredLoop, if_neg (by rw [hp]; exact Bool.false_ne_true)]
    rw [ih _ _ (fun q hq => h q (List.mem_cons_of_mem p hq))]
    cases hcov : pointCovered env p <;> simp [List.countP_cons, hcov] <;> omega

theorem obscuredLoop_of_outside (env : VisEnv) (ps : List (ℚ × ℚ)) (c v : Nat)
    (h : ∃ p ∈ ps, pointOutside env p = true) :
    obscuredLoop env ps c v = none := by
  induction ps generalizing c v with
  | nil =>
    rcases h with ⟨p, hp, _⟩
    cases hp
  | cons p ps ih =>
    by_cases hp : pointOutside env p = true
    · rw [obscuredLoop, if_pos hp]
    · rw [obscuredLoop, if_neg hp]
      rcases h with ⟨q, hq, hqo⟩
      rcases List.mem_cons.mp hq with rfl | hq2
      · exact absurd hqo hp
      · exact ih _ _ ⟨q, hq2, hqo⟩

theorem samplePoints_length (rect : Rect) : (samplePoints rect).length = 9 := by
  simp [samplePoints]

theorem isObscured_of_outside (cov : ℚ) (env : VisEnv) (rect : Rect)
    (h : ∃ p ∈ samplePoints rect, pointOutside env p = true) :
    _isObscured true cov env rect = false := by
  unfold _isObscured
  rw [obscuredLoop_of_outside env _ 0 0 h]
  rfl

theorem isObscured_of_inside (cov : ℚ) (env : VisEnv) (rect : Rect)
    (h : ∀ p ∈ samplePoints rect, pointOutside env p = false) :
    (_isObscured true cov env rect = true ↔
      cov ≤ ((samplePoints rect).countP (fun p => pointCovered env p) : ℚ) / 9) := by
  unfold _isObscured
  rw [obscuredLoop_of_all_inside env _ 0 0 h, samplePoints_length]
  simp

theorem start_obs_elem (t0 : Tracker) (found : Bool) (rect : Rect)
    (h : t0.observer = true → t0.element = true) :
    (start t0 found rect).observer = true → (start t0 found rect).element = true := by
  obtain ⟨_, _, _, _, _, hobs, _, _⟩ := initializeElement_frame t0 found
  have helem := initializeElement_element t0 found
  rcases start_cases t0 found rect with ⟨heq, _⟩ | ⟨heq, hg, _⟩ | ⟨heq, hg, _⟩ <;> rw [heq]
  · intro hh
    rw [hobs] at hh
    rw [helem, h hh]
    simp
  · intro _
    show (_initializeElement t0 found).element = true
    rcases Bool.eq_false_or_eq_true ((_initializeElement t0 found).element) with ht | hf
    · exact ht
    · exact absurd (Or.inr hf) hg
  · intro _
    show (_initializeElement t0 found).element = true
    rcases Bool.eq_false_or_eq_true ((_initializeElement t0 found).element) with ht | hf
    · exact ht
    · exact absurd (Or.inr hf) hg

theorem mkTracker_obs_elem (opts : Options) (elem : String) (found : Bool) (rect : Rect) :
    (mkTracker opts elem found rect).observer = true →
      (mkTracker opts elem found rect).element = true := by
  simp only [mkTracker]
  split
  · apply start_obs_elem
    intro hh
    simp [initTracker] at hh
  · intro hh
    simp [initTracker] at hh

theorem step_calls_of_completed (t : Tracker) (e : Event) (h : t.completed = true) :
    (step t e).completeCalls = t.completeCalls := by
  cases e with
  | start found rect => exact (start_frame t found rect).2.1
  | stop => exact (stop_frame_all t).2.2.2.2.2.2.2.2.1
  | sample entries =>
    show (if t.observer then _viewableChange t entries else t).completeCalls = _
    split
    · exact (viewableChange_frame t entries).2.1
    · rfl
  | timerFire =>
    show (if t.timer then _onComplete t else t).completeCalls = _
    split
    · exact onComplete_calls_of_completed t h
    · rfl

/-! Additional concrete fixtures for the closed theorems. -/

/-- Raw configuration holding exactly the documented defaults. -/
def rawDefaults : RawOptions :=
  { autostart := JSVal.bool true, autostop := JSVal.bool true,
    coverageThreshold := JSVal.num (1/10), inViewThreshold := JSVal.num (1/2),
    isVisible := JSVal.bool true, timeInView := JSVal.num 1000,
    onComplete := true, onError := false }

/-- Defaults except that autostart is the number one instead of a boolean. -/
def rawBadAutostart : RawOptions := { rawDefaults with autostart := JSVal.num 1 }

/-- Defaults except that autostop is the number zero instead of a boolean. -/
def rawBadAutostop : RawOptions := { rawDefaults with autostop := JSVal.num 0 }

/-- Defaults except that isVisible is the number zero instead of a boolean. -/
def rawBadIsVisible : RawOptions := { rawDefaults with isVisible := JSVal.num 0 }

/-- Two violations at once: a non-boolean autostart and a zero coverage threshold. -/
def rawBadTwo : RawOptions :=
  { rawDefaults with autostart := JSVal.num 1, coverageThreshold := JSVal.num 0 }

/-- A tracker that completed with autostop disabled, reached by starting, going
in view, and letting the timer fire. -/
def trackerDone : Tracker :=
  run (mkTracker optsNoStop "el" true rectSmall)
    [Event.start true rectSmall, Event.sample [entryIn], Event.timerFire]

/-- A tracker that is observing and currently in view with a pending timer. -/
def tInView : Tracker :=
  run (mkTracker optsManual "el" true rectSmall)
    [Event.start true rectSmall, Event.sample [entryIn]]

/-- A first start call whose element resolution fails: no subscription and no
threshold adjustment. -/
def c6first : Tracker := start (mkTracker optsManual "el" false rectSmall) false rectBig

/-- A second start call on the same tracker, now resolving a large element. -/
def c6second : Tracker := start c6first true rectBig

/-- A tracker observed in view, stopped, then started again: its stale inView
flag survives while no timer is pending. -/
def c7state : Tracker :=
  run (mkTracker optsManual "el" true rectSmall)
    [Event.start true rectSmall, Event.sample [entryIn], Event.stop,
     Event.start true rectSmall]

/-- A 100 by 100 rectangle at the origin. -/
def rect100 : Rect := { left := 0, top := 0, width := 100, height := 100 }

/-- Environment covering exactly the center and the four quarter points of
rect100 (five of the nine sample points). -/
def env5of9 : VisEnv :=
  { hidden := false, style := trivStyle, ancestorStyles := [],
    innerWidth := 1000, innerHeight := 1000,
    elementFromPoint := fun x _ =>
      if x = 50 ∨ x = 25 ∨ x = 75 then some { containsTop := false, isTarget := false }
      else none }

/-- Raw default-like configuration with the classifier disabled. -/
def rawAuto : RawOptions := { rawDefaults with isVisible := JSVal.bool false }

/-! Claim theorems. -/

/-- C1: for every tracker built from any raw configuration and any sequence of
events (samples, timer firings, start and stop calls), the completion callback is
invoked at most once; and the completed flag, once true, is preserved by every
single operation. -/
theorem completion_at_most_once_and_monotone :
    (∀ (raw : RawOptions) (elem : String) (found : Bool) (rect : Rect)
        (evs : List Event),
      (run (constructRaw raw elem found rect) evs).completeCalls ≤ 1) ∧
    (∀ (t : Tracker) (e : Event), t.completed = true → (step t e).completed = true) := by
  constructor
  · intro raw elem found rect evs
    exact (inv1_run _ evs (inv1_constructRaw raw elem found rect)).1
  · exact step_completed_mono

/-- Witness for C1 at a concrete run that completes once and at a concrete
completed tracker hit by a further timer firing. -/
theorem completion_at_most_once_and_monotone_witness :
    (run (constructRaw rawAuto "el" true rectSmall)
        [Event.sample [entryIn], Event.timerFire, Event.sample [entryIn],
          Event.timerFire]).completeCalls ≤ 1 ∧
    trackerDone.completed = true ∧
    (step trackerDone Event.timerFire).completed = true :=
  ⟨completion_at_most_once_and_monotone.1 rawAuto "el" true rectSmall _,
    by norm_num [trackerDone, run, step, mkTracker, initTracker, optsNoStop, start,
      _initializeElement, _unobserve, _stopTimer, _viewableChange, _inView, _outView,
      _onComplete, largeSizeElement, rectSmall, entryIn],
    completion_at_most_once_and_monotone.2 trackerDone Event.timerFire
      (by norm_num [trackerDone, run, step, mkTracker, initTracker, optsNoStop, start,
        _initializeElement, _unobserve, _stopTimer, _viewableChange, _inView, _outView,
        _onComplete, largeSizeElement, rectSmall, entryIn])⟩

/-- C2 counterexample: a reachable completed tracker with autostop disabled keeps
its subscription, but a later sample that satisfies every out-view condition
(ratio below threshold, started, in view) is ignored outright: the claim that
later samples are still processed and can trigger transitions is false. -/
theorem post_completion_sample_ignored_cex :
    trackerDone.completed = true ∧ trackerDone.options.autostop = false ∧
    trackerDone.observer = true ∧ trackerDone.started = true ∧
    trackerDone.inView = true ∧
    entryOut.ratioQ < trackerDone.options.inViewThreshold ∧
    step trackerDone (Event.sample [entryOut]) = trackerDone := by
  norm_num [trackerDone, run, step, mkTracker, initTracker, optsNoStop, start,
    _initializeElement, _unobserve, _stopTimer, _viewableChange, _inView, _outView,
    _onComplete, largeSizeElement, rectSmall, entryIn, entryOut]

/-- C2 amended: completion with autostop tears the subscription down and without
autostop leaves it untouched; but once completed, sample batches are dropped by
the completed guard before any transition, and no event ever invokes the
completion callback again. -/
theorem autostop_teardown_amended (t : Tracker) (entries : List Entry) (e : Event) :
    (t.options.autostop = true → t.element = true → (_onComplete t).observer = false) ∧
    (t.options.autostop = false → (_onComplete t).observer = t.observer) ∧
    (t.completed = true → _viewableChange t entries = t) ∧
    (t.completed = true →
      (step t e).completeCalls = t.completeCalls ∧ (step t e).completed = true) :=
  ⟨onComplete_observer_of_autostop t, onComplete_observer_of_noautostop t,
    viewableChange_of_completed t entries,
    fun h => ⟨step_calls_of_completed t e h, step_completed_mono t e h⟩⟩

/-- Witness for C2 amended: completing an in-view tracker with autostop set tears
down its subscription. -/
theorem autostop_teardown_amended_witness :
    tInView.options.autostop = true ∧ tInView.element = true ∧
    (_onComplete tInView).observer = false :=
  ⟨by norm_num [tInView, run, step, mkTracker, initTracker, optsManual, start,
      _initializeElement, _viewableChange, _inView, largeSizeElement, rectSmall, entryIn],
    by norm_num [tInView, run, step, mkTracker, initTracker, optsManual, start,
      _initializeElement, _viewableChange, _inView, largeSizeElement, rectSmall, entryIn],
    (autostop_teardown_amended tInView [] Event.stop).1
      (by norm_num [tInView, run, step, mkTracker, initTracker, optsManual, start,
        _initializeElement, _viewableChange, _inView, largeSizeElement, rectSmall, entryIn])
      (by norm_num [tInView, run, step, mkTracker, initTracker, optsManual, start,
        _initializeElement, _viewableChange, _inView, largeSizeElement, rectSmall, entryIn])⟩

/-- C3: the sample handler uses only the first entry of a batch; an empty batch
or a completed tracker leaves the state unchanged; with the classifier enabled
and rejecting, the sample is ignored; otherwise the out-view transition fires
exactly when the ratio is below the threshold with started and inView set
(clearing inView and the timer), and the in-view transition fires exactly when
the ratio reaches the threshold while not in view (setting started, inView and
the timer). -/
theorem viewableChange_transition_rules (t : Tracker) (entry : Entry)
    (rest : List Entry) :
    _viewableChange t [] = t ∧
    _viewableChange t (entry :: rest) = _viewableChange t [entry] ∧
    (t.completed = true → _viewableChange t (entry :: rest) = t) ∧
    (t.completed = false → t.options.isVisible = true →
      _isReallyVisible t.element t.options.coverageThreshold entry.env entry.rect = false →
      _viewableChange t (entry :: rest) = t) ∧
    (t.completed = false →
      (t.options.isVisible = true →
        _isReallyVisible t.element t.options.coverageThreshold entry.env entry.rect = true) →
      _viewableChange t (entry :: rest) =
        if entry.ratioQ < t.options.inViewThreshold ∧ t.started = true ∧ t.inView = true
          then { t with inView := false, timer := false }
        else if t.options.inViewThreshold ≤ entry.ratioQ ∧ t.inView = false
          then { t with started := true, inView := true, timer := true }
        else t) :=
  ⟨rfl, rfl, viewableChange_of_completed t (entry :: rest),
    viewableChange_invisible_eq t entry rest,
    fun h1 h2 => viewableChange_main t entry rest h1 (visGuard_false_of t entry h2)⟩

/-- Witness for C3: an in-view sample on an observing, not-in-view tracker with
the classifier disabled takes the in-view branch. -/
theorem viewableChange_transition_rules_witness :
    tInView.completed = false ∧ tInView.inView = true ∧
    tInView.options.inViewThreshold ≤ entryIn.ratioQ ∧
    _viewableChange tInView [entryIn] = tInView := by
  refine ⟨?_, ?_, ?_, ?_⟩ <;>
    [skip; skip; skip;
      exact (viewableChange_transition_rules tInView entryIn []).2.2.2.2
        (by norm_num [tInView, run, step, mkTracker, initTracker, optsManual, start,
          _initializeElement, _viewableChange, _inView, largeSizeElement, rectSmall, entryIn])
        (by norm_num [tInView, run, step, mkTracker, initTracker, optsManual, start,
          _initializeElement, _viewableChange, _inView, largeSizeElement, rectSmall,
          entryIn]) |>.trans (by norm_num [tInView, run, step, mkTracker, initTracker,
            optsManual, start, _initializeElement, _viewableChange, _inView,
            largeSizeElement, rectSmall, entryIn])] <;>
    norm_num [tInView, run, step, mkTracker, initTracker, optsManual, start,
      _initializeElement, _viewableChange, _inView, largeSizeElement, rectSmall, entryIn]

/-- C9: stop() is idempotent and safe in every state: it removes the subscription
and clears the timer without resetting completed, and construction immediately
followed by stop() leaves neither a subscription nor a timer. -/
theorem stop_idempotent_and_safe (t : Tracker) (opts : Options) (elem : String)
    (found : Bool) (rect : Rect) (h : t.observer = true → t.element = true) :
    stop t = { t with observer := false, timer := false } ∧
    stop (stop t) = stop t ∧
    (stop (mkTracker opts elem found rect)).observer = false ∧
    (stop (mkTracker opts elem found rect)).timer = false ∧
    (stop t).completed = t.completed := by
  refine ⟨stop_eq_of t h, stop_stop t, ?_, stop_timer_eq_false _,
    (stop_frame_all t).2.2.2.2.2.1⟩
  rw [stop_eq_of _ (mkTracker_obs_elem opts elem found rect)]

/-- Witness for C9 at a concrete observing tracker. -/
theorem stop_idempotent_and_safe_witness :
    (tInView.observer = true → tInView.element = true) ∧
    stop tInView = { tInView with observer := false, timer := false } :=
  ⟨by norm_num [tInView, run, step, mkTracker, initTracker, optsManual, start,
      _initializeElement, _viewableChange, _inView, largeSizeElement, rectSmall, entryIn],
    (stop_idempotent_and_safe tInView optsManual "el" true rectSmall
      (by norm_num [tInView, run, step, mkTracker, initTracker, optsManual, start,
        _initializeElement, _viewableChange, _inView, largeSizeElement, rectSmall,
        entryIn])).1⟩

/-- C10: stop() modifies only the subscription handle and the timer: the target
identifier, the element reference, the started, inView and completed flags, the
whole configuration record (hence also an adjusted inViewThreshold), the
assignable hooks, the callback counter and the dispatched errors are all
unchanged. -/
theorem stop_modifies_only_observer_and_timer (t : Tracker) :
    (stop t).el = t.el ∧ (stop t).element = t.element ∧
    (stop t).started = t.started ∧ (stop t).inView = t.inView ∧
    (stop t).completed = t.completed ∧ (stop t).options = t.options ∧
    (stop t).options.inViewThreshold = t.options.inViewThreshold ∧
    (stop t).instOnComplete = t.instOnComplete ∧
    (stop t).instOnError = t.instOnError ∧
    (stop t).completeCalls = t.completeCalls ∧ (stop t).errors = t.errors := by
  obtain ⟨h1, h2, h3, h4, h5, h6, h7, h8, h9, h10⟩ := stop_frame_all t
  exact ⟨h1, h2, h8, h7, h6, h3, by rw [h3], h4, h5, h9, h10⟩

/-- C4: the occlusion detector samples the nine fixed points in order (center,
quarter points, corners inset by one unit); any sample point outside the viewport
makes it return not-obscured immediately; otherwise it reports obscured exactly
when the covered fraction of the nine considered points reaches the coverage
threshold, a point counting as covered when the topmost element there is neither
the tracked element nor one of its descendants. -/
theorem isObscured_characterization (cov : ℚ) (env : VisEnv) (rect : Rect) :
    samplePoints rect =
      [ (rect.left + rect.width / 2, rect.top + rect.height / 2),
        (rect.left + rect.width * (1/4), rect.top + rect.height * (1/4)),
        (rect.left + rect.width * (3/4), rect.top + rect.height * (1/4)),
        (rect.left + rect.width * (1/4), rect.top + rect.height * (3/4)),
        (rect.left + rect.width * (3/4), rect.top + rect.height * (3/4)),
        (rect.left + 1, rect.top + 1),
        (rect.right - 1, rect.top + 1),
        (rect.left + 1, rect.bottom - 1),
        (rect.right - 1, rect.bottom - 1) ] ∧
    ((∃ p ∈ samplePoints rect, pointOutside env p = true) →
      _isObscured true cov env rect = false) ∧
    ((∀ p ∈ samplePoints rect, pointOutside env p = false) →
      (_isObscured true cov env rect = true ↔
        cov ≤ ((samplePoints rect).countP (fun p => pointCovered env p) : ℚ) / 9)) :=
  ⟨rfl, isObscured_of_outside cov env rect, isObscured_of_inside cov env rect⟩

/-- Witness for C4: five of nine points covered with coverage threshold one half
yields obscured. -/
theorem isObscured_characterization_witness :
    (∀ p ∈ samplePoints rect100, pointOutside env5of9 p = false) ∧
    (_isObscured true (1/2) env5of9 rect100 = true ↔
      (1 : ℚ)/2 ≤ ((samplePoints rect100).countP (fun p => pointCovered env5of9 p) : ℚ) / 9) ∧
    _isObscured true (1/2) env5of9 rect100 = true := by
  have hin : ∀ p ∈ samplePoints rect100, pointOutside env5of9 p = false := by
    norm_num [samplePoints, pointOutside, rect100, env5of9, Rect.right, Rect.bottom]
  have h := (isObscured_characterization (1/2) env5of9 rect100).2.2 hin
  exact ⟨hin, h, h.mpr (by norm_num [samplePoints, pointCovered, env5of9, rect100,
    Rect.right, Rect.bottom, List.countP, List.countP.go])⟩

/-- C5: the classifier returns false when the element reference is absent, and on
a present element returns true exactly when every check passes: no hidden
attribute, no hiding computed style (display none, visibility hidden or collapse,
zero opacity), nonzero rectangle dimensions, no zero-scale transform, not
obscured, and no hidden ancestor; any failing check makes it false. -/
theorem isReallyVisible_characterization (cov : ℚ) (env : VisEnv) (rect : Rect) :
    _isReallyVisible false cov env rect = false ∧
    (_isReallyVisible true cov env rect = true ↔
      (env.hidden = false ∧ env.style.display ≠ "none" ∧
        env.style.visibility ≠ "hidden" ∧ env.style.visibility ≠ "collapse" ∧
        env.style.opacity ≠ 0 ∧ rect.width ≠ 0 ∧ rect.height ≠ 0 ∧
        transformZero env.style.transform = false ∧
        _isObscured true cov env rect = false ∧
        ∀ s ∈ env.ancestorStyles,
          s.display ≠ "none" ∧ s.visibility ≠ "hidden" ∧ s.visibility ≠ "collapse")) := by
  constructor
  · rfl
  · unfold _isReallyVisible
    split_ifs with h1 h2 h3 h4 h5 h6 h7 <;> simp_all [List.any_eq_true] <;> try tauto
    obtain ⟨x, hx, hcase⟩ := h7
    refine ⟨x, hx, fun hd hv => ?_⟩
    rcases hcase with (hc | hc) | hc
    · exact absurd hc hd
    · exact absurd hc hv
    · exact hc

/-- Witness for C5: a fully visible, unobstructed element classifies as visible. -/
theorem isReallyVisible_characterization_witness :
    _isReallyVisible true (1/10) trivEnv rectSmall = true := by
  refine (isReallyVisible_characterization (1/10) trivEnv rectSmall).2.mpr
    ⟨?_, ?_, ?_, ?_, ?_, ?_, ?_, ?_, ?_, ?_⟩ <;>
    first
      | decide
      | norm_num [trivEnv, trivStyle, rectSmall, transformZero, _isObscured,
          obscuredLoop, samplePoints, pointOutside, pointCovered, Rect.right,
          Rect.bottom]

/-- C6 counterexample: with the default threshold untouched, a first start() call
whose element resolution fails performs no adjustment; the adjustment then
happens at the second start() call, so the mutation is not restricted to the
first start() call. -/
theorem threshold_adjust_second_start_cex :
    c6first.options.inViewThreshold = 1/2 ∧ c6first.observer = false ∧
    c6first.element = false ∧ largeSizeElement ≤ rectBig.width * rectBig.height ∧
    c6second.options.inViewThreshold = 3/10 ∧ c6second.observer = true := by
  norm_num [c6second, c6first, mkTracker, initTracker, optsManual, start,
    _initializeElement, _handleError, largeSizeElement, rectBig, rectSmall]

/-- C6 amended: a start() call changes the threshold exactly when the element is
resolved, no subscription is active, the threshold still equals the default one
half, and the rendered area reaches the large-creative bound; the only possible
change is to three tenths; no other operation changes it; and once the threshold
differs from the default, no run of events ever changes it again (so the mutation
happens at most once per tracker, though not necessarily at the first start()
call). -/
theorem threshold_adjust_amended (t : Tracker) (found : Bool) (rect : Rect)
    (entries : List Entry) (evs : List Event) :
    ((start t found rect).options.inViewThreshold ≠ t.options.inViewThreshold ↔
      (t.observer = false ∧ (t.element = true ∨ found = true) ∧
        t.options.inViewThreshold = 1/2 ∧
        largeSizeElement ≤ rect.width * rect.height)) ∧
    ((start t found rect).options.inViewThreshold = t.options.inViewThreshold ∨
      (t.options.inViewThreshold = 1/2 ∧
        (start t found rect).options.inViewThreshold = 3/10)) ∧
    (stop t).options.inViewThreshold = t.options.inViewThreshold ∧
    (_viewableChange t entries).options.inViewThreshold = t.options.inViewThreshold ∧
    (_onComplete t).options.inViewThreshold = t.options.inViewThreshold ∧
    (t.options.inViewThreshold ≠ 1/2 →
      (run t evs).options.inViewThreshold = t.options.inViewThreshold) :=
  ⟨start_thr_characterization t found rect, start_thr_cases t found rect,
    by rw [(stop_frame_all t).2.2.1], by rw [(viewableChange_frame t entries).2.2.1],
    by rw [(onComplete_frame t).2.2.1], run_thr_of_ne t evs⟩

/-- Witness for C6 amended: after the adjustment the threshold differs from the
default and survives a stop event. -/
theorem threshold_adjust_amended_witness :
    c6second.options.inViewThreshold ≠ 1/2 ∧
    (run c6second [Event.stop]).options.inViewThreshold =
      c6second.options.inViewThreshold :=
  ⟨by norm_num [c6second, c6first, mkTracker, initTracker, optsManual, start,
      _initializeElement, _handleError, largeSizeElement, rectBig, rectSmall],
    (threshold_adjust_amended c6second true rectBig [] [Event.stop]).2.2.2.2.2
      (by norm_num [c6second, c6first, mkTracker, initTracker, optsManual, start,
        _initializeElement, _handleError, largeSizeElement, rectBig, rectSmall])⟩

/-- C7 counterexample: a tracker observed in view, stopped, then started again is
in view, not completed, with an active subscription and no timer, refuting the
claimed equivalence between timer presence and that state. -/
theorem timer_iff_inview_cex :
    c7state.inView = true ∧ c7state.completed = false ∧ c7state.observer = true ∧
    c7state.timer = false := by
  norm_num [c7state, run, step, mkTracker, initTracker, optsManual, start,
    _initializeElement, _unobserve, _stopTimer, stop, _viewableChange, _inView,
    _outView, largeSizeElement, rectSmall, entryIn]

/-- C7 amended: in every reachable state, a pending timer implies the in-view,
awaiting-duration state (inView set, not completed, subscription active); the
converse direction of the claimed equivalence fails. -/
theorem timer_implies_inview_inv (raw : RawOptions) (elem : String) (found : Bool)
    (rect : Rect) (evs : List Event) :
    (run (constructRaw raw elem found rect) evs).timer = true →
      ((run (constructRaw raw elem found rect) evs).inView = true ∧
        (run (constructRaw raw elem found rect) evs).completed = false ∧
        (run (constructRaw raw elem found rect) evs).observer = true) := by
  apply invT_run
  intro htm
  rw [constructRaw_timer raw elem found rect] at htm
  cases htm

/-- Witness for C7 amended at a run that arms the timer. -/
theorem timer_implies_inview_inv_witness :
    (run (constructRaw rawAuto "el" true rectSmall) [Event.sample [entryIn]]).timer =
      true ∧
    ((run (constructRaw rawAuto "el" true rectSmall) [Event.sample [entryIn]]).inView =
        true ∧
      (run (constructRaw rawAuto "el" true rectSmall)
          [Event.sample [entryIn]]).completed = false ∧
      (run (constructRaw rawAuto "el" true rectSmall)
          [Event.sample [entryIn]]).observer = true) :=
  ⟨by norm_num [run, step, constructRaw, _validateOptions, rawToOptions, rawAuto,
      rawDefaults, JSVal.isBoolVal, JSVal.asBool, JSVal.asNum, initTracker, start,
      _initializeElement, _viewableChange, _inView, largeSizeElement, rectSmall, entryIn],
    timer_implies_inview_inv rawAuto "el" true rectSmall [Event.sample [entryIn]]
      (by norm_num [run, step, constructRaw, _validateOptions, rawToOptions, rawAuto,
        rawDefaults, JSVal.isBoolVal, JSVal.asBool, JSVal.asNum, initTracker, start,
        _initializeElement, _viewableChange, _inView, largeSizeElement, rectSmall,
        entryIn])⟩

/-- C8: the three boolean option checks (autostart, autostop, isVisible) all
report the identical copy-pasted error text naming coverageThreshold, so the
violated checks are not reported as distinct errors; the rest of the claim holds:
validation stops at the first violation, exactly one error is dispatched, and the
tracker stays inert with no element resolution attempted (its result does not
depend on the resolution outcome). -/
theorem validator_shared_message_bug :
    _validateOptions rawBadAutostart = some ErrMsg.coverageMustBeBoolText ∧
    _validateOptions rawBadAutostop = some ErrMsg.coverageMustBeBoolText ∧
    _validateOptions rawBadIsVisible = some ErrMsg.coverageMustBeBoolText ∧
    _validateOptions rawBadTwo = some ErrMsg.coverageMustBeBoolText ∧
    (constructRaw rawBadAutostart "target" true rectSmall).errors =
      [ErrMsg.coverageMustBeBoolText] ∧
    (constructRaw rawBadAutostart "target" true rectSmall).element = false ∧
    (constructRaw rawBadAutostart "target" true rectSmall).observer = false ∧
    (constructRaw rawBadAutostart "target" true rectSmall).el = "" ∧
    constructRaw rawBadAutostart "target" true rectSmall =
      constructRaw rawBadAutostart "other" false rectBig := by
  norm_num [constructRaw, _validateOptions, rawBadAutostart, rawBadAutostop,
    rawBadIsVisible, rawBadTwo, rawDefaults, JSVal.isBoolVal, JSVal.asBool,
    JSVal.asNum, rawToOptions, initTracker, _handleError]

end Viewability
